import Mathlib

/-!
Verification development for the markmap MCP server core
(identifier sanitizer, path guard, render/customize/outline/renderFile tools,
and the per-agent artifact writer).

The TypeScript sources are embedded shallowly:
- JS strings are Lean `String`s, with the JS string operations used by the
  code (`trim`-emptiness, regex character filtering, `startsWith`,
  `split('/')`) modelled at the character-list level;
- fallible code returns `Except`;
- the external rendering engine, the markdown parser utilities and the
  filesystem are passed in as explicit parameters (they are external
  collaborators or live outside the embedded modules), and the tool
  implementations are the functions under verification.
-/

/-! ## JS string primitives used by the sources -/

/-- The character class of the sanitizer regex `[a-zA-Z0-9._-]`. -/
def allowedIdChar (c : Char) : Bool :=
  c.isAlpha || c.isDigit || c = '.' || c = '_' || c = '-'

/-- `s.replace(/[^a-zA-Z0-9._-]/g, '')`: keep exactly the allowed characters,
in order. -/
def jsFilterId (s : String) : String :=
  String.mk (s.toList.filter allowedIdChar)

/-- `!s || s.trim().length === 0`: the string is empty or whitespace-only. -/
def jsIsBlank (s : String) : Bool :=
  s.toList.all Char.isWhitespace

/-- JS `String.prototype.startsWith`. -/
def jsStartsWith (s pre : String) : Bool :=
  pre.toList.isPrefixOf s.toList

/-- Split a character list on a separator character (as JS `split(sep)`). -/
def splitOnChar (sep : Char) : List Char → List (List Char)
  | [] => [[]]
  | c :: rest =>
    let r := splitOnChar sep rest
    if c = sep then [] :: r
    else
      match r with
      | [] => [[c]]
      | h :: t => (c :: h) :: t

/-- Lowercase a string character-wise (JS `toLowerCase` on ASCII). -/
def jsToLower (s : String) : String :=
  String.mk (s.toList.map Char.toLower)

/-! ## Identifier Sanitizer (`lib/storage.ts`, `sanitizeAgentId`) -/

/-- `sanitizeAgentId` from `src/markmap-mcp/src/lib/storage.ts`:
throws when the input is empty/whitespace-only or when stripping the
disallowed characters leaves nothing; otherwise returns the stripped string. -/
def sanitizeAgentId (agentId : String) : Except String String :=
  if jsIsBlank agentId then
    .error "agent_id cannot be empty"
  else
    let sanitized := jsFilterId agentId
    if sanitized = "" then
      .error "agent_id contains no valid characters (allowed: a-zA-Z0-9._-)"
    else
      .ok sanitized

/-- Whether an `Except` result is an error. -/
def isErr {ε α : Type} : Except ε α → Bool
  | .error _ => true
  | .ok _ => false

/-! ## POSIX path model (`path.resolve`, `path.join`, `path.extname`)

`path.resolve` is purely lexical: it joins against the working directory,
splits on `/`, and processes `.` and `..` segments.  It never consults the
filesystem, so it follows no symbolic links. -/

/-- Split an absolute or relative path string into its nonempty segments. -/
def splitSegs (s : String) : List String :=
  ((splitOnChar '/' s.toList).map String.mk).filter (fun x => x ≠ "")

/-- One step of lexical normalization: `.` is dropped, `..` pops a segment. -/
def normStep (acc : List String) (seg : String) : List String :=
  if seg = "." then acc
  else if seg = ".." then acc.dropLast
  else acc ++ [seg]

/-- Lexical normalization of a segment list (rooted at `/`). -/
def normSegs (segs : List String) : List String :=
  segs.foldl normStep []

/-- Render a segment list as an absolute path string. -/
def joinSegs : List String → String
  | [] => ""
  | [s] => s
  | s :: rest => s ++ "/" ++ joinSegs rest

/-- Render normalized segments as an absolute path. -/
def renderAbs (segs : List String) : String :=
  "/" ++ joinSegs segs

/-- Whether a path string is absolute. -/
def isAbsPath (s : String) : Bool :=
  jsStartsWith s "/"

/-- `path.resolve(p)` with working directory `cwd` (assumed absolute):
absolute paths are normalized, relative paths are resolved against `cwd`. -/
def resolvePath (cwd p : String) : String :=
  if isAbsPath p then renderAbs (normSegs (splitSegs p))
  else renderAbs (normSegs (splitSegs cwd ++ splitSegs p))

/-- `path.resolve(q)` for an absolute `q` (also `path.resolve(process.cwd())`). -/
def normAbs (s : String) : String :=
  renderAbs (normSegs (splitSegs s))

/-! ## Path Guard (`tools/renderFile.ts`, `validateFilePath`) -/

/-- `validateFilePath` from the renderFile tool: lexically resolves the
candidate path and accepts when the resolved string starts with the resolved
working directory, or — when an agent id is supplied (JS-truthy) and strips
to a nonempty token — with the resolved agent storage directory. -/
def validateFilePath (cwd root : String) (filePath : String)
    (agentId : Option String) : Bool :=
  let resolved := resolvePath cwd filePath
  if jsStartsWith resolved (normAbs cwd) then true
  else
    match agentId with
    | none => false
    | some a =>
      if a = "" then false
      else
        let sanitized := jsFilterId a
        if sanitized.length > 0 then
          jsStartsWith resolved (resolvePath cwd (root ++ "/" ++ sanitized))
        else false

/-- A symbolic-link table: absolute source path to absolute target path. -/
def LinkTable := List (String × String)

/-- Look up a symlink for an absolute path. -/
def lookupLink (links : LinkTable) (p : String) : Option String :=
  (links.find? (fun x => x.1 = p)).map (fun x => x.2)

/-- Canonicalize segments against a symlink table: each prefix that is a
symlink is replaced by its target (one resolution step per component). -/
def realSegs (links : LinkTable) (acc : List String) : List String → List String
  | [] => acc
  | seg :: rest =>
    match lookupLink links (renderAbs (acc ++ [seg])) with
    | some t => realSegs links (splitSegs t) rest
    | none => realSegs links (acc ++ [seg]) rest

/-- The canonical (symlink-resolved) form of an absolute path. -/
def realPathOf (links : LinkTable) (p : String) : String :=
  renderAbs (realSegs links [] (splitSegs p))

/-- The Path Guard contract in the specification's words, for comparison with
the implementation: resolve the candidate to its absolute, *canonical* form
(symbolic links resolved against `links`) and accept exactly when that
canonical form is prefixed by the canonical working directory or by the
canonical storage subtree of the sanitized identifier. -/
def pathGuardSpec (links : LinkTable) (cwd root : String) (filePath : String)
    (agentId : Option String) : Bool :=
  let canon := realPathOf links (resolvePath cwd filePath)
  jsStartsWith canon (realPathOf links (normAbs cwd)) ||
    (match agentId with
     | none => false
     | some a =>
       let s := jsFilterId a
       s ≠ "" && jsStartsWith canon (realPathOf links (resolvePath cwd (root ++ "/" ++ s))))

/-- The lexical reading of the Path Guard contract: accept exactly when the
lexically resolved path string is prefixed by the resolved working directory
string or, when the identifier strips to a nonempty token, by the resolved
agent storage directory string.  No symlink resolution. -/
def pathGuardLex (cwd root : String) (filePath : String)
    (agentId : Option String) : Bool :=
  let resolved := resolvePath cwd filePath
  jsStartsWith resolved (normAbs cwd) ||
    (match agentId with
     | none => false
     | some a =>
       let s := jsFilterId a
       s ≠ "" && jsStartsWith resolved (resolvePath cwd (root ++ "/" ++ s)))

/-- Directory-subtree membership: `p` (an absolute, normalized path) lies
under directory `dir` when `dir`'s segments are a prefix of `p`'s segments. -/
def isUnderDir (p dir : String) : Bool :=
  (splitSegs (normAbs dir)).isPrefixOf (splitSegs p)

/-! ## Error kinds and tool plumbing -/

/-- The error kinds of the error handling design (§7). -/
inductive ErrType
  | ValidationError
  | ResourceLimitError
  | PathSecurityError
  | FileSystemError
  | RenderError
deriving DecidableEq

/-- Paths returned after saving tool outputs (`SavedFiles`). -/
structure SavedFiles where
  svg : String
  html : String
  md : String
deriving DecidableEq

/-- The error kind of a tool result, if it is an error. -/
def errKind {α : Type} : Except (ErrType × String) α → Option ErrType
  | .error (t, _) => some t
  | .ok _ => none

/-- Index of the last `'.'` in a character list. -/
def lastDotIdx (cs : List Char) : Option Nat :=
  (List.range cs.length).foldl
    (fun acc i => if cs.get? i = some '.' then some i else acc) none

/-- `path.extname`: the extension of the basename, empty for dotfiles. -/
def extname (p : String) : String :=
  let b := ((splitOnChar '/' p.toList).map String.mk).getLastD p
  let cs := b.toList
  match lastDotIdx cs with
  | none => ""
  | some i => if i = 0 then "" else String.mk (cs.drop i)

/-- A hexadecimal digit as matched by `[0-9A-Fa-f]`. -/
def isHexDigitChar (c : Char) : Bool :=
  c.isDigit || ('A' ≤ c && c ≤ 'F') || ('a' ≤ c && c ≤ 'f')

/-- The strict `^#[0-9A-Fa-f]{6}$` test of the customize tool. -/
def isHexColor (s : String) : Bool :=
  match s.toList with
  | '#' :: rest => rest.length = 6 && rest.all isHexDigitChar
  | _ => false

/-- Index of the first element satisfying `p` (the JS validation loops). -/
def firstIdxWhere {α : Type} (p : α → Bool) : List α → Option Nat
  | [] => none
  | a :: rest => if p a then some 0 else (firstIdxWhere p rest).map (fun i => i + 1)

/-- The external markmap handler (`lib/markmap-handler.ts`) and the markdown
parser utilities (`utils/markdown-parser.ts`), which are outside the embedded
modules, as an abstract collaborator: rendering and parsing may fail
(a thrown error), parsing yields node count, depth and feature tags. -/
structure Handler where
  applyCustomization : String → String → Option (List String) → Except String String
  renderToSVG : String → Except String String
  parseMarkdown : String → Except String (Nat × Nat × List String)
  getColorScheme : String → List String

/-! ## Customize tool (`tools/customize.ts`) -/

structure CustomizeInput where
  agent_id : String
  markdown_content : String
  theme : Option String
  color_scheme : Option (List String)
  options : List String

structure CustomizeOutput where
  svg_content : String
  theme_applied : String
  colors_used : List String
  node_count : Nat
  custom_options : List String
  saved_files : SavedFiles
deriving DecidableEq

/-- The result of a customize run, together with whether the external render
delegate was invoked. -/
structure CustomizeRun where
  result : Except (ErrType × String) CustomizeOutput
  renderInvoked : Bool

/-- JS truthiness of the optional `theme` field (`input.theme && ...`). -/
def themeSupplied : Option String → Bool
  | none => false
  | some t => t ≠ ""

/-- The theme value used in the membership test. -/
def themeName (t : Option String) : String :=
  t.getD ""

/-- `input.theme || 'default'`. -/
def effectiveTheme : Option String → String
  | none => "default"
  | some t => if t = "" then "default" else t

/-- The valid themes of the customize tool. -/
def validThemes : List String :=
  ["default", "dark", "colorful", "minimal"]

/-- The color-scheme validation loop: index of the first non-`#RRGGBB`
entry, skipped entirely when the field is JS-falsy (absent). -/
def firstBadColor : Option (List String) → Option Nat
  | none => none
  | some cs => firstIdxWhere (fun c => !isHexColor c) cs

/-- `customizeTool` from `src/markmap-mcp/src/tools/customize.ts`, with the
external handler and the artifact writer passed in.  Any fault thrown after
validation (render, parse, auto-save) is caught by the tool's catch-all and
surfaces as a RenderError. -/
def customizeTool (h : Handler) (save : String → String → Except String SavedFiles)
    (input : CustomizeInput) : CustomizeRun :=
  if jsIsBlank input.agent_id then
    ⟨.error (.ValidationError, "agent_id cannot be empty"), false⟩
  else if jsFilterId input.agent_id = "" then
    ⟨.error (.ValidationError, "agent_id contains no valid characters"), false⟩
  else if jsIsBlank input.markdown_content then
    ⟨.error (.ValidationError, "Markdown content cannot be empty"), false⟩
  else if themeSupplied input.theme && !(validThemes.contains (themeName input.theme)) then
    ⟨.error (.ValidationError, "Invalid theme"), false⟩
  else
    match firstBadColor input.color_scheme with
    | some _i => ⟨.error (.ValidationError, "Invalid hex color"), false⟩
    | none =>
      let theme := effectiveTheme input.theme
      match h.applyCustomization input.markdown_content theme input.color_scheme with
      | .error e => ⟨.error (.RenderError, e), true⟩
      | .ok svg =>
        match h.parseMarkdown input.markdown_content with
        | .error e => ⟨.error (.RenderError, e), true⟩
        | .ok (n, _, _) =>
          let colors :=
            match input.color_scheme with
            | some cs => cs
            | none => h.getColorScheme theme
          match save svg input.markdown_content with
          | .error e => ⟨.error (.RenderError, e), true⟩
          | .ok files =>
            ⟨.ok { svg_content := svg, theme_applied := theme, colors_used := colors,
                   node_count := n, custom_options := input.options,
                   saved_files := files }, true⟩

/-! ## renderFile tool (`tools/renderFile.ts`) -/

structure RenderFileInput where
  agent_id : String
  file_path : String
  save_output : Bool
  output_path : Option String

structure RenderFileOutput where
  svg_content : String
  file_path : String
  saved_path : Option String
  node_count : Nat
  depth : Nat
  features_used : List String
  saved_files : SavedFiles
deriving DecidableEq

/-- The ambient collaborators of the renderFile tool: working directory,
storage root, the filesystem (read returns content and byte size), the
legacy explicit-path write (mkdir + write), the handler, and the artifact
writer. -/
structure RenderFileEnv where
  cwd : String
  root : String
  readFile : String → Except String (String × Nat)
  legacyWrite : String → String → Except String Unit
  handler : Handler
  save : String → String → Except String SavedFiles

/-- The result of a renderFile run, together with whether the legacy
explicit-path write was performed. -/
structure RenderFileRun where
  result : Except (ErrType × String) RenderFileOutput
  legacyWritten : Bool

/-- JS truthiness of the optional `output_path` field. -/
def outputPathTruthy : Option String → Bool
  | none => false
  | some s => s ≠ ""

/-- `renderFileTool` from the renderFile tool module: validates the agent
id, the file path, its extension and its location, reads the file, checks
the 5MB size ceiling, parses and renders, optionally performs the legacy
explicit-path write, and auto-saves to agent storage.  An auto-save fault is
caught by the catch-all as a RenderError; a legacy-write fault surfaces as a
FileSystemError. -/
def renderFileTool (env : RenderFileEnv) (input : RenderFileInput) : RenderFileRun :=
  if jsIsBlank input.agent_id then
    ⟨.error (.ValidationError, "agent_id cannot be empty"), false⟩
  else if jsFilterId input.agent_id = "" then
    ⟨.error (.ValidationError, "agent_id contains no valid characters"), false⟩
  else if jsIsBlank input.file_path then
    ⟨.error (.ValidationError, "File path cannot be empty"), false⟩
  else if !(jsToLower (extname input.file_path) = ".md" ||
            jsToLower (extname input.file_path) = ".markdown") then
    ⟨.error (.ValidationError, "Invalid file extension"), false⟩
  else if !(validateFilePath env.cwd env.root input.file_path (some input.agent_id)) then
    ⟨.error (.ValidationError, "File path must be within the current working directory or agent storage directory"), false⟩
  else
    match env.readFile input.file_path with
    | .error e => ⟨.error (.FileSystemError, e), false⟩
    | .ok (content, size) =>
      if 5 * 1024 * 1024 < size then
        ⟨.error (.ValidationError, "File too large"), false⟩
      else
        match env.handler.parseMarkdown content with
        | .error e => ⟨.error (.RenderError, e), false⟩
        | .ok (n, d, feats) =>
          match env.handler.renderToSVG content with
          | .error e => ⟨.error (.RenderError, e), false⟩
          | .ok svg =>
            if input.save_output && outputPathTruthy input.output_path then
              let op := input.output_path.getD ""
              if !(validateFilePath env.cwd env.root op (some input.agent_id)) then
                ⟨.error (.ValidationError, "Output path must be within the current working directory or agent storage directory"), false⟩
              else
                match env.legacyWrite op svg with
                | .error e => ⟨.error (.FileSystemError, e), false⟩
                | .ok _ =>
                  match env.save svg content with
                  | .error e => ⟨.error (.RenderError, e), true⟩
                  | .ok files =>
                    ⟨.ok { svg_content := svg, file_path := input.file_path,
                           saved_path := some op, node_count := n, depth := d,
                           features_used := feats, saved_files := files }, true⟩
            else
              match env.save svg content with
              | .error e => ⟨.error (.RenderError, e), false⟩
              | .ok files =>
                ⟨.ok { svg_content := svg, file_path := input.file_path,
                       saved_path := none, node_count := n, depth := d,
                       features_used := feats, saved_files := files }, false⟩

/-! ## fromOutline tool (`tools/fromOutline.ts`) -/

/-- A caller-supplied outline item. -/
structure OutlineItem where
  text : String
  level : Int
deriving DecidableEq

/-- Per-item validity of the fromOutline validation loop: nonempty text and
level in `[1,6]` (a zero level is also JS-falsy and rejected). -/
def itemValid (it : OutlineItem) : Bool :=
  !(jsIsBlank it.text) && (1 ≤ it.level && it.level ≤ 6)

structure FromOutlineInput where
  agent_id : String
  outline_items : List OutlineItem

structure FromOutlineOutput where
  svg_content : String
  markdown_generated : String
  node_count : Nat
  depth : Nat
  features_used : List String
  saved_files : SavedFiles
deriving DecidableEq

/-- The result of a fromOutline run, together with whether the
outline-to-Markdown compilation was performed. -/
structure FromOutlineRun where
  result : Except (ErrType × String) FromOutlineOutput
  compileInvoked : Bool

/-- `fromOutlineTool` from the fromOutline tool module: validates the agent
id, rejects an empty item list, validates each item (text then level), and
only then compiles the outline to Markdown, parses, renders and saves. -/
def fromOutlineTool (compile : List OutlineItem → String) (h : Handler)
    (save : String → String → Except String SavedFiles)
    (input : FromOutlineInput) : FromOutlineRun :=
  if jsIsBlank input.agent_id then
    ⟨.error (.ValidationError, "agent_id cannot be empty"), false⟩
  else if jsFilterId input.agent_id = "" then
    ⟨.error (.ValidationError, "agent_id contains no valid characters"), false⟩
  else if input.outline_items.isEmpty then
    ⟨.error (.ValidationError, "Outline items cannot be empty"), false⟩
  else
    match firstIdxWhere (fun it => !itemValid it) input.outline_items with
    | some _i => ⟨.error (.ValidationError, "Outline item has empty text or invalid level"), false⟩
    | none =>
      let md := compile input.outline_items
      match h.parseMarkdown md with
      | .error e => ⟨.error (.RenderError, e), true⟩
      | .ok (n, d, feats) =>
        match h.renderToSVG md with
        | .error e => ⟨.error (.RenderError, e), true⟩
        | .ok svg =>
          match save svg md with
          | .error e => ⟨.error (.RenderError, e), true⟩
          | .ok files =>
            ⟨.ok { svg_content := svg, markdown_generated := md, node_count := n,
                   depth := d, features_used := feats, saved_files := files }, true⟩

/-! ## Spec-modelled collaborators for concrete runs -/

/-- Join lines with newlines. -/
def joinLines : List String → String
  | [] => ""
  | [s] => s
  | s :: rest => s ++ "\n" ++ joinLines rest

/-- Modelled from the spec: the Outline-to-Markdown Compiler (§4.4) — its
source, `outlineToMarkdown` in `src/utils/markdown-parser.ts`, is not under
`src/`.  Each item becomes a heading line whose marker count equals its
level, in order, with no collapsing of skipped levels. -/
def outlineToMarkdown (items : List OutlineItem) : String :=
  joinLines (items.map
    (fun it => String.mk (List.replicate it.level.toNat '#') ++ " " ++ it.text))

/-- Count of leading `'#'` characters. -/
def leadingHashes : List Char → Nat
  | '#' :: rest => leadingHashes rest + 1
  | _ => 0

/-- Heading level of a markdown line (`#`..`######` followed by a space). -/
def headingLevel (line : String) : Option Nat :=
  let cs := line.toList
  let k := leadingHashes cs
  if 1 ≤ k && k ≤ 6 && cs.get? k = some ' ' then some k else none

/-- Split a string into its lines. -/
def splitLines (s : String) : List String :=
  (splitOnChar '\n' s.toList).map String.mk

/-- Modelled from the spec: the Structural Extractor statistics (§4.3) —
`countNodes` and `calculateDepth` in `src/utils/markdown-parser.ts` and the
parsing in `src/lib/markmap-handler.ts` are not under `src/`.  Every heading
contributes one node; depth is the greatest heading level reached. -/
def specExtract (md : String) : Nat × Nat :=
  let ls := (splitLines md).filterMap headingLevel
  (ls.length, ls.foldl Nat.max 0)

/-- A concrete external delegate for closed runs: rendering always succeeds
and parsing uses the spec-modelled extractor. -/
def stubHandler : Handler :=
  { applyCustomization := fun _ _ _ => .ok "<svg/>",
    renderToSVG := fun _ => .ok "<svg/>",
    parseMarkdown := fun md => .ok ((specExtract md).1, (specExtract md).2, []),
    getColorScheme := fun _ => [] }

/-- A delegate whose parser reports a given node count (depth 1). -/
def countHandler (n : Nat) : Handler :=
  { applyCustomization := fun _ _ _ => .ok "<svg/>",
    renderToSVG := fun _ => .ok "<svg/>",
    parseMarkdown := fun _ => .ok (n, 1, []),
    getColorScheme := fun _ => [] }

/-- An artifact writer that always succeeds. -/
def okSave : String → String → Except String SavedFiles :=
  fun _ _ => .ok { svg := "s.svg", html := "s.html", md := "s.md" }

/-- An artifact writer that always fails (a full disk, say). -/
def failSave (msg : String) : String → String → Except String SavedFiles :=
  fun _ _ => .error msg

/-! ## Artifact Writer storage model (`lib/storage.ts`)

Durability is modelled by the event trace each save emits against the
filesystem, and rollback behaviour by the sequence of completed writes. -/

/-- Filesystem events emitted by the storage layer. -/
inductive FsEv
  | openF (p : String)
  | writeF (p : String)
  | fsyncF (p : String)
  | closeF (p : String)
  | retSuccess
deriving DecidableEq

/-- Whether an `fsyncF p` occurs before any `retSuccess`. -/
def hasFsyncBeforeRet (p : String) : List FsEv → Bool
  | [] => false
  | .retSuccess :: _ => false
  | .fsyncF q :: rest => if q = p then true else hasFsyncBeforeRet p rest
  | _ :: rest => hasFsyncBeforeRet p rest

/-- A trace is durable when every write is followed by an fsync of the same
file before success is reported. -/
def durableTrace : List FsEv → Bool
  | [] => true
  | .writeF p :: rest => hasFsyncBeforeRet p rest && durableTrace rest
  | _ :: rest => durableTrace rest

/-- The trace of `writeFileSync` in `src/markmap-mcp/src/lib/storage.ts`:
`openSync`, `writeSync`, `fsyncSync`, `closeSync`. -/
def writeFileSyncTrace (p : String) : List FsEv :=
  [.openF p, .writeF p, .fsyncF p, .closeF p]

/-- The trace of `saveOutputs` in `src/markmap-mcp/src/lib/storage.ts`:
three synced writes, then success. -/
def saveOutputsTrace (svgP htmlP mdP : String) : List FsEv :=
  writeFileSyncTrace svgP ++ writeFileSyncTrace htmlP ++ writeFileSyncTrace mdP
    ++ [.retSuccess]

/-- The trace of `saveStructureOutputs` in
`src/markmap-mcp/src/lib/storage.ts`: two synced writes, then success. -/
def saveStructureOutputsTrace (mdP jsonP : String) : List FsEv :=
  writeFileSyncTrace mdP ++ writeFileSyncTrace jsonP ++ [.retSuccess]

/-- The trace of the legacy `saveOutputs` variant (the unnamed storage
module): three buffered `fs.writeFile` calls with no sync, then success. -/
def saveOutputsLegacyTrace (svgP htmlP mdP : String) : List FsEv :=
  [.writeF svgP, .writeF htmlP, .writeF mdP, .retSuccess]

/-- Sequential writes of `(path, content)` pairs, stopping at the first
failure (a thrown write error): returns the files actually written and
whether all writes succeeded.  Nothing is ever deleted. -/
def writeAll (fail : String → Bool) : List (String × String) → List (String × String) × Bool
  | [] => ([], true)
  | pc :: rest =>
    if fail pc.1 then ([], false)
    else
      let r := writeAll fail rest
      (pc :: r.1, r.2)

/-- The artifact set written by `saveOutputs` for one operation. -/
def artifactSetFiles (agentDir baseName svg html md : String) : List (String × String) :=
  [(agentDir ++ "/" ++ baseName ++ ".svg", svg),
   (agentDir ++ "/" ++ baseName ++ ".html", html),
   (agentDir ++ "/" ++ baseName ++ ".md", md)]

/-- Whether some entry of a supplied color scheme fails the `#RRGGBB` test. -/
def hasBadColor : Option (List String) → Bool
  | none => false
  | some cs => cs.any (fun c => !isHexColor c)

/-- A concrete renderFile environment for closed runs: reads succeed, the
legacy explicit-path write would fail if it were ever invoked, rendering
succeeds, auto-save succeeds. -/
def sampleRenderEnv : RenderFileEnv :=
  { cwd := "/work", root := "/opt/mcp-servers/markmap_output",
    readFile := fun _ => .ok ("# A\n## B", 8),
    legacyWrite := fun _ _ => .error "legacy write not expected",
    handler := stubHandler,
    save := okSave }

/-- A renderFile input requesting save_output with no output_path. -/
def sampleRenderInput : RenderFileInput :=
  { agent_id := "agent-001", file_path := "notes.md", save_output := true,
    output_path := none }

/-- A concrete renderFile environment whose legacy explicit-path write
fails. -/
def failingLegacyEnv : RenderFileEnv :=
  { cwd := "/work", root := "/opt/mcp-servers/markmap_output",
    readFile := fun _ => .ok ("# A\n## B", 8),
    legacyWrite := fun _ _ => .error "EACCES: permission denied",
    handler := stubHandler,
    save := okSave }

/-- A renderFile input requesting the legacy explicit-path write. -/
def legacyRenderInput : RenderFileInput :=
  { agent_id := "agent-001", file_path := "notes.md", save_output := true,
    output_path := some "out/x.svg" }

theorem allowedIdChar_not_whitespace (c : Char) (h : allowedIdChar c = true) :
    c.isWhitespace = false := by
  cases hw : c.isWhitespace with
  | false => rfl
  | true =>
    exfalso
    unfold Char.isWhitespace at hw
    simp only [Bool.or_eq_true, decide_eq_true_eq] at hw
    rcases hw with ((h1 | h1) | h1) | h1 <;> subst h1 <;> exact absurd h (by decide)

theorem string_toList_mk (l : List Char) : (String.mk l).toList = l := rfl

theorem string_mk_toList (s : String) : String.mk s.toList = s := by
  cases s; rfl

theorem jsFilterId_eq_self {s : String}
    (h : ∀ c ∈ s.toList, allowedIdChar c = true) : jsFilterId s = s := by
  unfold jsFilterId
  rw [List.filter_eq_self.mpr h, string_mk_toList]

theorem jsIsBlank_false_of_allowed {s : String} (hne : s ≠ "")
    (h : ∀ c ∈ s.toList, allowedIdChar c = true) : jsIsBlank s = false := by
  unfold jsIsBlank
  cases hl : s.toList with
  | nil => exact absurd (by rw [← string_mk_toList s, hl]) hne
  | cons a t =>
    have ha : allowedIdChar a = true := h a (by rw [hl]; exact List.mem_cons_self a t)
    simp [allowedIdChar_not_whitespace a ha]

theorem jsFilterId_empty_iff (s : String) :
    jsFilterId s = "" ↔ s.toList.filter allowedIdChar = [] := by
  unfold jsFilterId
  constructor
  · intro h
    have := congrArg String.toList h
    simpa [string_toList_mk] using this
  · intro h
    rw [h]

theorem whitespace_not_allowedIdChar (c : Char) (h : c.isWhitespace = true) :
    allowedIdChar c = false := by
  cases ha : allowedIdChar c with
  | false => rfl
  | true => rw [allowedIdChar_not_whitespace c ha] at h; exact absurd h (by decide)


theorem string_length_empty : ("" : String).length = 0 := rfl

theorem string_eq_empty_iff (s : String) : s = "" ↔ s.toList = [] :=
  ⟨fun h => by rw [h]; rfl, fun h => by rw [← string_mk_toList s, h]⟩

theorem string_length_pos_of_ne {s : String} (h : s ≠ "") : 0 < s.length := by
  cases s with
  | mk l =>
    cases l with
    | nil => exact absurd rfl h
    | cons a t => exact Nat.succ_pos _

theorem validateFilePath_eq_lex (cwd root fp : String) (aid : Option String) :
    validateFilePath cwd root fp aid = pathGuardLex cwd root fp aid := by
  unfold validateFilePath pathGuardLex
  cases aid with
  | none =>
    by_cases h : jsStartsWith (resolvePath cwd fp) (normAbs cwd) <;>
      first
      | rfl
      | simp [h]
  | some a =>
    by_cases h : jsStartsWith (resolvePath cwd fp) (normAbs cwd)
    · simp [h]
    · simp [h]
      by_cases hae : a = ""
      · subst hae
        simp [show jsFilterId "" = "" from rfl]
      · simp [hae]
        by_cases hf : jsFilterId a = ""
        · simp [hf, string_length_empty]
        · simp [hf, string_length_pos_of_ne hf]

/-! ## Claim theorems: sanitizer and path guard -/

/-- C1 (counterexample): the Path Guard does not work on canonical
(symlink-resolved) forms.  With a symbolic link `/work/link -> /etc` and
working directory `/work`, the candidate `link/passwd` is accepted by
`validateFilePath` although its canonical form `/etc/passwd` lies outside
both permitted roots — the guard's resolution is purely lexical, so
symbolic-link escapes are not rejected. -/
theorem c1_symlink_escape_counterexample :
    validateFilePath "/work" "/opt/mcp-servers/markmap_output" "link/passwd" none = true ∧
    pathGuardSpec [("/work/link", "/etc")] "/work" "/opt/mcp-servers/markmap_output"
      "link/passwd" none = false := by
  decide

/-- C1 (amended): `validateFilePath` accepts a candidate path exactly when
its lexically resolved absolute form is prefixed (as a string) by the
resolved working directory or, when the identifier sanitizes to a nonempty
token, by the resolved storage subtree for that token; no symbolic links are
resolved.  In particular `"../etc/passwd"` resolving outside both roots is
rejected, and a path strictly inside the caller's own agent subtree is
accepted. -/
theorem c1_path_guard_lexical :
    (∀ cwd root fp aid, validateFilePath cwd root fp aid = pathGuardLex cwd root fp aid) ∧
    validateFilePath "/home/user/project" "/opt/mcp-servers/markmap_output"
      "../etc/passwd" (some "agent-001") = false ∧
    validateFilePath "/home/user/project" "/opt/mcp-servers/markmap_output"
      "/opt/mcp-servers/markmap_output/agent-001/maps/x.md" (some "agent-001") = true :=
  ⟨validateFilePath_eq_lex, by decide, by decide⟩

/-- C2: whenever `sanitizeAgentId` returns a value, that value is the input
with exactly the characters outside `[a-zA-Z0-9._-]` deleted, in order; and
on a nonempty input consisting only of allowed characters it returns the
input unchanged. -/
theorem c2_sanitize_strips_exactly (s : String) :
    (∀ v, sanitizeAgentId s = .ok v →
      v.toList = s.toList.filter
        (fun c => c.isAlpha || c.isDigit || c = '.' || c = '_' || c = '-')) ∧
    (s ≠ "" →
      (∀ c ∈ s.toList, (c.isAlpha || c.isDigit || c = '.' || c = '_' || c = '-') = true) →
      sanitizeAgentId s = .ok s) := by
  constructor
  · intro v hv
    unfold sanitizeAgentId at hv
    by_cases hb : jsIsBlank s = true
    · simp [hb] at hv
    · simp [hb] at hv
      by_cases hf : jsFilterId s = ""
      · simp [hf] at hv
      · simp [hf] at hv
        rw [← hv]
        rfl
  · intro hne hall
    have hall' : ∀ c ∈ s.toList, allowedIdChar c = true := hall
    unfold sanitizeAgentId
    rw [jsIsBlank_false_of_allowed hne hall', jsFilterId_eq_self hall']
    simp [hne]

/-- C2 (witness): on the all-allowed identifier `"agent-001"` sanitization is
the identity, and on a mixed identifier the returned value is the filtered
character sequence. -/
theorem c2_sanitize_strips_exactly_check :
    sanitizeAgentId "agent-001" = .ok "agent-001" ∧
    ("agent01" : String).toList = ("agent 0/1!" : String).toList.filter
      (fun c => c.isAlpha || c.isDigit || c = '.' || c = '_' || c = '-') :=
  ⟨(c2_sanitize_strips_exactly "agent-001").2 (by decide) (by decide),
   (c2_sanitize_strips_exactly "agent 0/1!").1 "agent01" rfl⟩

/-- C3: `sanitizeAgentId` fails exactly when the input is empty or
whitespace-only, or when stripping the disallowed characters removes every
character; any returned value is a nonempty string. -/
theorem c3_sanitize_error_iff (s : String) :
    (isErr (sanitizeAgentId s) = true ↔
      (s.toList.all Char.isWhitespace = true ∨
       s.toList.filter
         (fun c => c.isAlpha || c.isDigit || c = '.' || c = '_' || c = '-') = [])) ∧
    (∀ v, sanitizeAgentId s = .ok v → v ≠ "") := by
  have hfilter : s.toList.filter
      (fun c => c.isAlpha || c.isDigit || c = '.' || c = '_' || c = '-') =
      s.toList.filter allowedIdChar := rfl
  constructor
  · rw [hfilter]
    constructor
    · intro herr
      unfold sanitizeAgentId at herr
      by_cases hb : jsIsBlank s = true
      · exact Or.inl hb
      · simp [hb] at herr
        by_cases hf : jsFilterId s = ""
        · exact Or.inr ((jsFilterId_empty_iff s).mp hf)
        · simp [hf] at herr
          exact absurd herr (by simp [isErr])
    · intro h
      rcases h with hb | hf
      · unfold sanitizeAgentId
        simp [show jsIsBlank s = true from hb, isErr]
      · unfold sanitizeAgentId
        have hf' : jsFilterId s = "" := (jsFilterId_empty_iff s).mpr hf
        by_cases hb : jsIsBlank s = true
        · simp [hb, isErr]
        · simp [hb, hf', isErr]
  · intro v hv
    unfold sanitizeAgentId at hv
    by_cases hb : jsIsBlank s = true
    · simp [hb] at hv
    · simp [hb] at hv
      by_cases hf : jsFilterId s = ""
      · simp [hf] at hv
      · simp [hf] at hv
        rw [← hv]
        exact hf

/-- C3 (witness): the all-disallowed identifier fails, and a mixed
identifier succeeds with a nonempty result. -/
theorem c3_sanitize_error_iff_check :
    isErr (sanitizeAgentId "@#$%") = true ∧ ("a.b-c" : String) ≠ "" :=
  ⟨(c3_sanitize_error_iff "@#$%").1.mpr (Or.inr (by decide)),
   (c3_sanitize_error_iff "a.b-c").2 "a.b-c" rfl⟩

/-- C9 (counterexample): acceptance is a string-prefix test, not a
directory-subtree test.  With working directory `/srv/app`, the path
`/srv/app2/f.md` is accepted (its resolved string starts with `/srv/app`)
although it does not resolve under the working directory. -/
theorem c9_prefix_not_subtree_counterexample :
    validateFilePath "/srv/app" "/opt/mcp-servers/markmap_output" "/srv/app2/f.md" none = true ∧
    isUnderDir (resolvePath "/srv/app" "/srv/app2/f.md") "/srv/app" = false := by
  decide

/-- C9 (amended): `validateFilePath` is total (it returns a boolean for
every path and optional identifier, throwing nothing), and when the
identifier is absent or sanitizes to the empty string the agent-storage root
is silently skipped: the path is accepted exactly when its lexically
resolved string has the resolved working directory string as a prefix (which
also admits sibling directories extending that string). -/
theorem c9_guard_skips_agent_root (cwd root fp : String) (aid : Option String)
    (hskip : aid = none ∨ ∃ a, aid = some a ∧ jsFilterId a = "") :
    validateFilePath cwd root fp aid =
      jsStartsWith (resolvePath cwd fp) (normAbs cwd) := by
  rcases hskip with h | ⟨a, ha, hf⟩
  · subst h
    unfold validateFilePath
    by_cases h : jsStartsWith (resolvePath cwd fp) (normAbs cwd) <;> simp [h]
  · subst ha
    unfold validateFilePath
    by_cases h : jsStartsWith (resolvePath cwd fp) (normAbs cwd)
    · simp [h]
    · simp [h]
      by_cases hae : a = ""
      · simp [hae]
      · simp [hae, hf, string_length_empty]

/-- C9 (witness): with the all-disallowed identifier `"@#$%"` the guard
reduces to the working-directory prefix test. -/
theorem c9_guard_skips_agent_root_check :
    validateFilePath "/work" "/opt/mcp-servers/markmap_output" "notes.md" (some "@#$%") =
      jsStartsWith (resolvePath "/work" "notes.md") (normAbs "/work") :=
  c9_guard_skips_agent_root "/work" "/opt/mcp-servers/markmap_output" "notes.md"
    (some "@#$%") (Or.inr ⟨"@#$%", rfl, by decide⟩)

/-! ## Helper lemmas for the tool theorems -/

theorem firstIdxWhere_eq_none_iff {α : Type} (p : α → Bool) (l : List α) :
    firstIdxWhere p l = none ↔ l.any p = false := by
  induction l with
  | nil => simp [firstIdxWhere]
  | cons a t ih =>
    by_cases hp : p a = true
    · simp [firstIdxWhere, hp]
    · simp only [Bool.not_eq_true] at hp
      simp [firstIdxWhere, hp, Option.map_eq_none', ih]

theorem firstBadColor_none_iff (o : Option (List String)) :
    firstBadColor o = none ↔ hasBadColor o = false := by
  cases o with
  | none => simp [firstBadColor, hasBadColor]
  | some cs => simp [firstBadColor, hasBadColor, firstIdxWhere_eq_none_iff]

theorem customize_error_kinds (h : Handler)
    (save : String → String → Except String SavedFiles) (input : CustomizeInput) :
    errKind (customizeTool h save input).result ∈
      [none, some ErrType.ValidationError, some ErrType.RenderError] := by
  unfold customizeTool
  split
  · simp [errKind]
  split
  · simp [errKind]
  split
  · simp [errKind]
  split
  · simp [errKind]
  split
  · simp [errKind]
  cases hac : h.applyCustomization input.markdown_content (effectiveTheme input.theme)
      input.color_scheme with
  | error e => simp [hac, errKind]
  | ok svg =>
    cases hpm : h.parseMarkdown input.markdown_content with
    | error e2 => simp [hac, hpm, errKind]
    | ok triple =>
      obtain ⟨n, d, f⟩ := triple
      cases hsv : save svg input.markdown_content with
      | error e3 => simp [hac, hpm, hsv, errKind]
      | ok files => simp [hac, hpm, hsv, errKind]

theorem renderFile_error_kinds (env : RenderFileEnv) (input : RenderFileInput) :
    errKind (renderFileTool env input).result ∈
      [none, some ErrType.ValidationError, some ErrType.FileSystemError,
       some ErrType.RenderError] := by
  unfold renderFileTool
  split
  · simp [errKind]
  split
  · simp [errKind]
  split
  · simp [errKind]
  split
  · simp [errKind]
  split
  · simp [errKind]
  cases hrf : env.readFile input.file_path with
  | error e => simp [hrf, errKind]
  | ok pr =>
    obtain ⟨content, size⟩ := pr
    simp only [hrf]
    split
    · simp [errKind]
    cases hpm : env.handler.parseMarkdown content with
    | error e => simp [hpm, errKind]
    | ok triple =>
      obtain ⟨n, d, f⟩ := triple
      cases hrs : env.handler.renderToSVG content with
      | error e => simp [hpm, hrs, errKind]
      | ok svg =>
        simp only [hpm, hrs]
        split
        · split
          · simp [errKind]
          cases hlw : env.legacyWrite (input.output_path.getD "") svg with
          | error e => simp [hlw, errKind]
          | ok u =>
            cases hsv : env.save svg content with
            | error e => simp [hlw, hsv, errKind]
            | ok files => simp [hlw, hsv, errKind]
        · cases hsv : env.save svg content with
          | error e => simp [hsv, errKind]
          | ok files => simp [hsv, errKind]

theorem writeAll_spec (fail : String → Bool) (files : List (String × String)) :
    (writeAll fail files).1 = files.takeWhile (fun pc => !fail pc.1) ∧
    (writeAll fail files).2 = files.all (fun pc => !fail pc.1) := by
  induction files with
  | nil => simp [writeAll]
  | cons pc rest ih =>
    by_cases hf : fail pc.1 = true
    · simp [writeAll, hf, List.takeWhile, List.all_cons]
    · simp only [Bool.not_eq_true] at hf
      simp [writeAll, hf, List.takeWhile, List.all_cons, ih.1, ih.2]

theorem renderFile_legacy_write_failure (env : RenderFileEnv) (input : RenderFileInput)
    (h1 : jsIsBlank input.agent_id = false) (h2 : jsFilterId input.agent_id ≠ "")
    (h3 : jsIsBlank input.file_path = false)
    (h4 : jsToLower (extname input.file_path) = ".md" ∨
          jsToLower (extname input.file_path) = ".markdown")
    (h5 : validateFilePath env.cwd env.root input.file_path (some input.agent_id) = true)
    (content : String) (size : Nat)
    (h6 : env.readFile input.file_path = .ok (content, size))
    (h7 : ¬(5 * 1024 * 1024 < size))
    (n d : Nat) (f : List String)
    (h8 : env.handler.parseMarkdown content = .ok (n, d, f))
    (svg : String) (h9 : env.handler.renderToSVG content = .ok svg)
    (h10 : input.save_output = true)
    (op : String) (hop : input.output_path = some op) (hopne : op ≠ "")
    (hvout : validateFilePath env.cwd env.root op (some input.agent_id) = true)
    (e : String) (hlw : env.legacyWrite op svg = .error e) :
    (renderFileTool env input).result = .error (ErrType.FileSystemError, e) ∧
    (renderFileTool env input).legacyWritten = false := by
  unfold renderFileTool
  rcases h4 with h4 | h4 <;>
    simp [h1, h2, h3, h4, h5, h6, h7, h8, h9, h10, hop, hopne, hvout, hlw,
      outputPathTruthy]

theorem customize_autosave_failure (h : Handler)
    (save : String → String → Except String SavedFiles) (input : CustomizeInput)
    (h1 : jsIsBlank input.agent_id = false) (h2 : jsFilterId input.agent_id ≠ "")
    (h3 : jsIsBlank input.markdown_content = false)
    (h4 : themeSupplied input.theme = true →
          validThemes.contains (themeName input.theme) = true)
    (h5 : hasBadColor input.color_scheme = false)
    (svg : String)
    (h6 : h.applyCustomization input.markdown_content (effectiveTheme input.theme)
            input.color_scheme = .ok svg)
    (n d : Nat) (f : List String)
    (h7 : h.parseMarkdown input.markdown_content = .ok (n, d, f))
    (e : String) (h8 : save svg input.markdown_content = .error e) :
    (customizeTool h save input).result = .error (ErrType.RenderError, e) ∧
    (customizeTool h save input).renderInvoked = true := by
  have hfi := (firstBadColor_none_iff input.color_scheme).mpr h5
  unfold customizeTool
  by_cases hsup : themeSupplied input.theme = true
  · have hmem : themeName input.theme ∈ validThemes := by simpa using h4 hsup
    simp [h1, h2, h3, hsup, hmem, hfi, h6, h7, h8]
  · simp only [Bool.not_eq_true] at hsup
    simp [h1, h2, h3, hsup, hfi, h6, h7, h8]

/-! ## Claim theorems: tools and artifact writer -/

/-- C4 (code_bug evidence): neither markdown-parsing operation enforces the
10,000-node / depth-20 ceilings.  The only error kinds customize can return
are ValidationError and RenderError, the only kinds renderFile can return
are ValidationError, FileSystemError and RenderError — no input and no
parser report can produce a ResourceLimitError — and a customize run whose
parse reports any node count n (10,001 included) succeeds and returns that
count unchanged. -/
theorem c4_no_resource_limit_enforcement :
    (∀ h save input, errKind (customizeTool h save input).result ∈
      [none, some ErrType.ValidationError, some ErrType.RenderError]) ∧
    (∀ env input, errKind (renderFileTool env input).result ∈
      [none, some ErrType.ValidationError, some ErrType.FileSystemError,
       some ErrType.RenderError]) ∧
    (∀ n : Nat, (customizeTool (countHandler n) okSave
      { agent_id := "agent-001", markdown_content := "# h", theme := none,
        color_scheme := none, options := [] }).result =
      .ok { svg_content := "<svg/>", theme_applied := "default", colors_used := [],
            node_count := n, custom_options := [],
            saved_files := { svg := "s.svg", html := "s.html", md := "s.md" } }) :=
  ⟨customize_error_kinds, renderFile_error_kinds, fun _n => rfl⟩

/-- C5 (counterexample): the legacy `saveOutputs` variant bundled in the
repository writes its three artifacts with buffered `fs.writeFile` calls and
reports success without any sync. -/
theorem c5_legacy_save_unsynced_counterexample :
    durableTrace (saveOutputsLegacyTrace
      "/opt/mcp-servers/markmap_output/agent-001/renderFile_1739450400000.svg"
      "/opt/mcp-servers/markmap_output/agent-001/renderFile_1739450400000.html"
      "/opt/mcp-servers/markmap_output/agent-001/renderFile_1739450400000.md") = false := by
  decide

/-- C5 (amended): in the current storage module every artifact write goes
through `writeFileSync` (open, write, fsync, close), so both `saveOutputs`
and `saveStructureOutputs` flush every write with an explicit sync before
reporting success; the legacy storage variant does not sync. -/
theorem c5_save_outputs_synced :
    (∀ svgP htmlP mdP, durableTrace (saveOutputsTrace svgP htmlP mdP) = true) ∧
    (∀ mdP jsonP, durableTrace (saveStructureOutputsTrace mdP jsonP) = true) :=
  ⟨fun _p1 _p2 _p3 => by
      simp [saveOutputsTrace, writeFileSyncTrace, durableTrace, hasFsyncBeforeRet],
   fun _q1 _q2 => by
      simp [saveStructureOutputsTrace, writeFileSyncTrace, durableTrace, hasFsyncBeforeRet]⟩

/-- C6 (counterexample): an empty-string theme is supplied and is not in the
valid set, yet customize does not fail — the JS truthiness test treats it as
absent, the default theme is used, and the render delegate is invoked. -/
theorem c6_empty_theme_counterexample :
    validThemes.contains "" = false ∧
    errKind (customizeTool stubHandler okSave
      { agent_id := "agent-001", markdown_content := "# A", theme := some "",
        color_scheme := none, options := [] }).result = none ∧
    (customizeTool stubHandler okSave
      { agent_id := "agent-001", markdown_content := "# A", theme := some "",
        color_scheme := none, options := [] }).renderInvoked = true := by
  decide

/-- C6 (amended): if the supplied theme is nonempty and not in
{default, dark, colorful, minimal}, or any entry of the supplied color
scheme fails the strict `#RRGGBB` test, customize fails with a
ValidationError and the external render delegate is never invoked (an
empty-string theme is treated as unsupplied and defaults). -/
theorem c6_invalid_customization_rejected (h : Handler)
    (save : String → String → Except String SavedFiles) (input : CustomizeInput)
    (hbad : (themeSupplied input.theme = true ∧
             validThemes.contains (themeName input.theme) = false) ∨
            hasBadColor input.color_scheme = true) :
    errKind (customizeTool h save input).result = some ErrType.ValidationError ∧
    (customizeTool h save input).renderInvoked = false := by
  unfold customizeTool
  split
  · simp [errKind]
  split
  · simp [errKind]
  split
  · simp [errKind]
  split
  · simp [errKind]
  next hth =>
    cases hbc : firstBadColor input.color_scheme with
    | some i => simp [errKind]
    | none =>
      exfalso
      have hgood := (firstBadColor_none_iff input.color_scheme).mp hbc
      rcases hbad with ⟨hsup, hmem⟩ | hcol
      · exact hth (by simp [hsup]; simpa using hmem)
      · rw [hgood] at hcol
        exact absurd hcol (by decide)

/-- C6 (witness): the unknown theme `"neon"` is rejected with a
ValidationError before any render delegation. -/
theorem c6_invalid_customization_rejected_check :
    errKind (customizeTool stubHandler okSave
      { agent_id := "agent-001", markdown_content := "# A", theme := some "neon",
        color_scheme := none, options := [] }).result = some ErrType.ValidationError ∧
    (customizeTool stubHandler okSave
      { agent_id := "agent-001", markdown_content := "# A", theme := some "neon",
        color_scheme := none, options := [] }).renderInvoked = false :=
  c6_invalid_customization_rejected stubHandler okSave
    { agent_id := "agent-001", markdown_content := "# A", theme := some "neon",
      color_scheme := none, options := [] }
    (Or.inl ⟨by decide, by decide⟩)

/-- C7 (counterexample): on an empty outline sequence every item vacuously
satisfies the invariants, yet the operation fails with a ValidationError and
compilation never proceeds. -/
theorem c7_empty_outline_counterexample :
    (∀ it ∈ ([] : List OutlineItem), itemValid it = true) ∧
    errKind (fromOutlineTool outlineToMarkdown stubHandler okSave
      { agent_id := "agent-001", outline_items := [] }).result =
      some ErrType.ValidationError ∧
    (fromOutlineTool outlineToMarkdown stubHandler okSave
      { agent_id := "agent-001", outline_items := [] }).compileInvoked = false :=
  ⟨by simp, by decide, by decide⟩

/-- C7 (amended): if any outline item has blank text or a level outside
[1,6], the operation fails with a ValidationError before any compilation;
and when the agent id is valid, the item sequence is nonempty and every item
satisfies both invariants, validation passes, compilation proceeds, and any
subsequent failure is a RenderError, never a ValidationError. -/
theorem c7_outline_validation (compile : List OutlineItem → String) (h : Handler)
    (save : String → String → Except String SavedFiles) (input : FromOutlineInput) :
    ((∃ it ∈ input.outline_items, itemValid it = false) →
      errKind (fromOutlineTool compile h save input).result = some ErrType.ValidationError ∧
      (fromOutlineTool compile h save input).compileInvoked = false) ∧
    (jsIsBlank input.agent_id = false → jsFilterId input.agent_id ≠ "" →
      input.outline_items ≠ [] →
      (∀ it ∈ input.outline_items, itemValid it = true) →
      (fromOutlineTool compile h save input).compileInvoked = true ∧
      errKind (fromOutlineTool compile h save input).result ∈
        [none, some ErrType.RenderError]) := by
  constructor
  · intro hbad
    have hany : input.outline_items.any (fun it => !itemValid it) = true := by
      rcases hbad with ⟨it, hmem, hval⟩
      exact List.any_eq_true.mpr ⟨it, hmem, by simp [hval]⟩
    unfold fromOutlineTool
    split
    · simp [errKind]
    split
    · simp [errKind]
    split
    · simp [errKind]
    cases hfi : firstIdxWhere (fun it => !itemValid it) input.outline_items with
    | some i => simp [errKind]
    | none =>
      exfalso
      have hnone := (firstIdxWhere_eq_none_iff _ _).mp hfi
      rw [hnone] at hany
      exact absurd hany (by decide)
  · intro h1 h2 h3 hall
    have hany : input.outline_items.any (fun it => !itemValid it) = false := by
      simp only [List.any_eq_false]
      intro it hmem
      simp [hall it hmem]
    have hfi := (firstIdxWhere_eq_none_iff (fun it => !itemValid it)
      input.outline_items).mpr hany
    have hne : input.outline_items.isEmpty = false := by
      simp [List.isEmpty_iff, h3]
    unfold fromOutlineTool
    simp only [h1, h2, hne, hfi, Bool.false_eq_true, if_false, ite_false]
    cases hpm : h.parseMarkdown (compile input.outline_items) with
    | error e => simp [hpm, errKind]
    | ok triple =>
      obtain ⟨n, d, f⟩ := triple
      cases hrs : h.renderToSVG (compile input.outline_items) with
      | error e => simp [hpm, hrs, errKind]
      | ok svg =>
        cases hsv : save svg (compile input.outline_items) with
        | error e => simp [hpm, hrs, hsv, errKind]
        | ok files => simp [hpm, hrs, hsv, errKind]

/-- C7 (witness): a blank-text item is rejected with a ValidationError
before compilation, and a fully valid outline reaches compilation. -/
theorem c7_outline_validation_check :
    errKind (fromOutlineTool outlineToMarkdown stubHandler okSave
      { agent_id := "agent-001",
        outline_items := [{ text := "AI", level := 1 }, { text := " ", level := 2 }] }).result =
      some ErrType.ValidationError ∧
    (fromOutlineTool outlineToMarkdown stubHandler okSave
      { agent_id := "agent-001",
        outline_items := [{ text := "AI", level := 1 }, { text := "ML", level := 2 },
                          { text := "NLP", level := 2 }] }).compileInvoked = true :=
  ⟨((c7_outline_validation outlineToMarkdown stubHandler okSave
      { agent_id := "agent-001",
        outline_items := [{ text := "AI", level := 1 }, { text := " ", level := 2 }] }).1
      ⟨{ text := " ", level := 2 }, by decide, by decide⟩).1,
   ((c7_outline_validation outlineToMarkdown stubHandler okSave
      { agent_id := "agent-001",
        outline_items := [{ text := "AI", level := 1 }, { text := "ML", level := 2 },
                          { text := "NLP", level := 2 }] }).2
      (by decide) (by decide) (by decide) (by decide)).1⟩

/-- C8 (counterexample): when the auto-save artifact writes fail, the
customize operation's catch-all surfaces the failure as a RenderError, not
as a FileSystemError. -/
theorem c8_autosave_failure_is_rendererror_counterexample :
    (customizeTool stubHandler (failSave "ENOSPC: no space left on device")
      { agent_id := "agent-001", markdown_content := "# A", theme := none,
        color_scheme := none, options := [] }).result =
      .error (ErrType.RenderError, "ENOSPC: no space left on device") := by
  rfl

/-- C8 (amended): a failure of the legacy explicit-path write in renderFile
surfaces as a FileSystemError; a failure of the auto-save artifact writes is
caught by the operation's catch-all and surfaces as a RenderError; and the
artifact writer performs its writes sequentially with no deletion, so on a
mid-set failure exactly the files written before the failing one remain on
disk (no rollback). -/
theorem c8_artifact_write_failure :
    (∀ (env : RenderFileEnv) (input : RenderFileInput),
      jsIsBlank input.agent_id = false → jsFilterId input.agent_id ≠ "" →
      jsIsBlank input.file_path = false →
      (jsToLower (extname input.file_path) = ".md" ∨
       jsToLower (extname input.file_path) = ".markdown") →
      validateFilePath env.cwd env.root input.file_path (some input.agent_id) = true →
      ∀ content size, env.readFile input.file_path = .ok (content, size) →
      ¬(5 * 1024 * 1024 < size) →
      ∀ n d f, env.handler.parseMarkdown content = .ok (n, d, f) →
      ∀ svg, env.handler.renderToSVG content = .ok svg →
      input.save_output = true →
      ∀ op, input.output_path = some op → op ≠ "" →
      validateFilePath env.cwd env.root op (some input.agent_id) = true →
      ∀ e, env.legacyWrite op svg = .error e →
      (renderFileTool env input).result = .error (ErrType.FileSystemError, e) ∧
      (renderFileTool env input).legacyWritten = false) ∧
    (∀ (h : Handler) (save : String → String → Except String SavedFiles)
       (input : CustomizeInput),
      jsIsBlank input.agent_id = false → jsFilterId input.agent_id ≠ "" →
      jsIsBlank input.markdown_content = false →
      (themeSupplied input.theme = true →
       validThemes.contains (themeName input.theme) = true) →
      hasBadColor input.color_scheme = false →
      ∀ svg, h.applyCustomization input.markdown_content (effectiveTheme input.theme)
          input.color_scheme = .ok svg →
      ∀ n d f, h.parseMarkdown input.markdown_content = .ok (n, d, f) →
      ∀ e, save svg input.markdown_content = .error e →
      (customizeTool h save input).result = .error (ErrType.RenderError, e) ∧
      (customizeTool h save input).renderInvoked = true) ∧
    (∀ fail files,
      (writeAll fail files).1 = files.takeWhile (fun pc => !fail pc.1) ∧
      (writeAll fail files).2 = files.all (fun pc => !fail pc.1)) :=
  ⟨fun env input h1 h2 h3 h4 h5 content size h6 h7 n d f h8 svg h9 h10 op hop hopne
      hvout e hlw =>
    renderFile_legacy_write_failure env input h1 h2 h3 h4 h5 content size h6 h7 n d f
      h8 svg h9 h10 op hop hopne hvout e hlw,
   fun h save input h1 h2 h3 h4 h5 svg h6 n d f h7 e h8 =>
    customize_autosave_failure h save input h1 h2 h3 h4 h5 svg h6 n d f h7 e h8,
   writeAll_spec⟩

/-- C8 (witness): a failing legacy write yields a FileSystemError, and a
failing auto-save yields a RenderError. -/
theorem c8_artifact_write_failure_check :
    (renderFileTool failingLegacyEnv legacyRenderInput).result =
      .error (ErrType.FileSystemError, "EACCES: permission denied") ∧
    (customizeTool stubHandler (failSave "ENOSPC: disk full")
      { agent_id := "agent-001", markdown_content := "# A", theme := none,
        color_scheme := none, options := [] }).result =
      .error (ErrType.RenderError, "ENOSPC: disk full") :=
  ⟨(c8_artifact_write_failure.1 failingLegacyEnv legacyRenderInput (by decide) (by decide)
      (by decide) (Or.inl (by decide)) (by decide) "# A\n## B" 8 rfl (by decide)
      2 2 [] rfl "<svg/>" rfl rfl "out/x.svg" rfl (by decide) (by decide)
      "EACCES: permission denied" rfl).1,
   (c8_artifact_write_failure.2.1 stubHandler (failSave "ENOSPC: disk full")
      { agent_id := "agent-001", markdown_content := "# A", theme := none,
        color_scheme := none, options := [] }
      (by decide) (by decide) (by decide) (by decide) (by decide) "<svg/>" rfl
      1 1 [] rfl "ENOSPC: disk full" rfl).1⟩

/-- C10: when save_output is requested but output_path is absent or empty,
renderFile performs no legacy explicit-path write, still succeeds
(auto-saving to agent storage), and returns an output whose saved_path is
undefined. -/
theorem c10_renderfile_auto_save_only (env : RenderFileEnv) (input : RenderFileInput)
    (h1 : jsIsBlank input.agent_id = false) (h2 : jsFilterId input.agent_id ≠ "")
    (h3 : jsIsBlank input.file_path = false)
    (h4 : jsToLower (extname input.file_path) = ".md" ∨
          jsToLower (extname input.file_path) = ".markdown")
    (h5 : validateFilePath env.cwd env.root input.file_path (some input.agent_id) = true)
    (content : String) (size : Nat)
    (h6 : env.readFile input.file_path = .ok (content, size))
    (h7 : ¬(5 * 1024 * 1024 < size))
    (n d : Nat) (f : List String)
    (h8 : env.handler.parseMarkdown content = .ok (n, d, f))
    (svg : String) (h9 : env.handler.renderToSVG content = .ok svg)
    (files : SavedFiles) (h10 : env.save svg content = .ok files)
    (h11 : input.save_output = true)
    (h12 : outputPathTruthy input.output_path = false) :
    renderFileTool env input =
      ⟨.ok { svg_content := svg, file_path := input.file_path, saved_path := none,
             node_count := n, depth := d, features_used := f, saved_files := files },
       false⟩ := by
  unfold renderFileTool
  rcases h4 with h4 | h4 <;>
    simp [h1, h2, h3, h4, h5, h6, h7, h8, h9, h10, h11, h12]

/-- C10 (witness): a concrete renderFile run with save_output set and no
output_path succeeds with saved_path undefined and no legacy write. -/
theorem c10_renderfile_auto_save_only_check :
    renderFileTool sampleRenderEnv sampleRenderInput =
      ⟨.ok { svg_content := "<svg/>", file_path := "notes.md", saved_path := none,
             node_count := 2, depth := 2, features_used := [],
             saved_files := { svg := "s.svg", html := "s.html", md := "s.md" } },
       false⟩ :=
  c10_renderfile_auto_save_only sampleRenderEnv sampleRenderInput (by decide) (by decide)
    (by decide) (Or.inl (by decide)) (by decide) "# A\n## B" 8 rfl (by decide)
    2 2 [] rfl "<svg/>" rfl { svg := "s.svg", html := "s.html", md := "s.md" } rfl rfl
    (by decide)
